import Mathlib

/-!
Verification of the starfield animation engine of the reality-check repository.

The repository contains several variants of the starfield renderer:
* `components/StarField.tsx` — the drifting single-layer variant (450 stars,
  per-star drift velocity, toroidal wrap, dpr-aware resize);
* the multi-layer parallax variant (three layers, vertical fall with wrap at
  a 10px margin, per-layer parallax and glow) — `src/unnamed/part_003`;
* two simpler single-layer variants (`src/unnamed/part_004` and the first
  variant in `part_003`): twinkle only, no dpr handling, no regeneration on
  resize.

Numbers are modelled as exact rationals (the source runs on JS doubles); the
host's `Math.random()` is modelled as an injected stream `rng : ℕ → ℚ` of
draws, with the hypothesis `∀ n, 0 ≤ rng n ∧ rng n < 1` where a claim needs
it.  Canvas painting is modelled as an explicit trace of paint records, and
the DOM/event-loop side (listeners, scheduled frame callbacks) as explicit
host state.
-/

namespace StarFieldSpec

/-! ## Single-layer drifting variant (`components/StarField.tsx`) -/

/-- Star record of the drifting single-layer variant: position, radius,
brightness `alpha`, brightness rate `delta`, and drift velocity `(vx, vy)`. -/
structure StarD where
  x : ℚ
  y : ℚ
  r : ℚ
  alpha : ℚ
  delta : ℚ
  vx : ℚ
  vy : ℚ
  deriving DecidableEq, Repr

/-- One generated star of the drifting variant, from seven consecutive
`Math.random()` draws: `x = r1*width`, `y = r2*height`, `r = r3*1.4 + 0.3`,
`alpha = r4`, `delta = r5*0.02 + 0.005`, `vx = (r6 - 0.5)*0.04`,
`vy = (r7 - 0.5)*0.04`. -/
def mkStarD (w h r1 r2 r3 r4 r5 r6 r7 : ℚ) : StarD :=
  { x := r1 * w, y := r2 * h, r := r3 * 1.4 + 0.3, alpha := r4,
    delta := r5 * 0.02 + 0.005, vx := (r6 - 0.5) * 0.04, vy := (r7 - 0.5) * 0.04 }

/-- `STAR_COUNT` of `components/StarField.tsx`. -/
def STAR_COUNT : ℕ := 450

/-- The `createStars` loop of the drifting variant: `STAR_COUNT` stars, each
consuming seven draws from the random stream. -/
def createStars (rng : ℕ → ℚ) (w h : ℚ) : List StarD :=
  (List.range STAR_COUNT).map fun i =>
    mkStarD w h (rng (7 * i)) (rng (7 * i + 1)) (rng (7 * i + 2))
      (rng (7 * i + 3)) (rng (7 * i + 4)) (rng (7 * i + 5)) (rng (7 * i + 6))

/-- Edge wrap of one coordinate, mirroring the two sequential `if`s of the
source: `if (v < 0) v = bound; if (v > bound) v = 0;`. -/
def wrapCoord (bound v : ℚ) : ℚ :=
  let v1 := if v < 0 then bound else v
  if v1 > bound then 0 else v1

/-- Per-frame update of one star in the drifting variant (`animate` body):
flicker (`alpha += delta`, sign flip when `alpha <= 0 || alpha >= 1`), then
drift (`x += vx; y += vy`) with edge wrap on all four edges. -/
def updateStarD (w h : ℚ) (s : StarD) : StarD :=
  let a := s.alpha + s.delta
  let d := if a ≤ 0 ∨ 1 ≤ a then -s.delta else s.delta
  { x := wrapCoord w (s.x + s.vx), y := wrapCoord h (s.y + s.vy),
    r := s.r, alpha := a, delta := d, vx := s.vx, vy := s.vy }

/-- Iterated per-frame update of the drifting variant; frame `n` is applied
last. -/
def iterStarD (w h : ℚ) : ℕ → StarD → StarD
  | 0, s => s
  | n + 1, s => updateStarD w h (iterStarD w h n s)

theorem updateStarD_alpha (w h : ℚ) (s : StarD) :
    (updateStarD w h s).alpha = s.alpha + s.delta := rfl

theorem updateStarD_delta (w h : ℚ) (s : StarD) :
    (updateStarD w h s).delta =
      if s.alpha + s.delta ≤ 0 ∨ 1 ≤ s.alpha + s.delta then -s.delta
      else s.delta := rfl

theorem updateStarD_x (w h : ℚ) (s : StarD) :
    (updateStarD w h s).x = wrapCoord w (s.x + s.vx) := rfl

theorem updateStarD_y (w h : ℚ) (s : StarD) :
    (updateStarD w h s).y = wrapCoord h (s.y + s.vy) := rfl

/-- After the wrap the coordinate lies in `[0, bound]` (for a nonnegative
bound). -/
theorem wrapCoord_mem (bound v : ℚ) (hb : 0 ≤ bound) :
    0 ≤ wrapCoord bound v ∧ wrapCoord bound v ≤ bound := by
  unfold wrapCoord
  dsimp only
  split_ifs with h1 h2 h3 <;> constructor <;> linarith

/-- Brightness invariant of the `[0,1]`-band variants: the rate has constant
magnitude `δ`, and `alpha` is either inside the band, or at most one step
above it with the rate pointing down, or at most one step below it with the
rate pointing up. -/
def alphaInvD (δ a d : ℚ) : Prop :=
  (d = δ ∨ d = -δ) ∧
    ((0 ≤ a ∧ a ≤ 1) ∨ (1 ≤ a ∧ a ≤ 1 + δ ∧ d = -δ) ∨
      (-δ ≤ a ∧ a ≤ 0 ∧ d = δ))

/-- The per-frame update of the drifting variant preserves the brightness
invariant (for a step `0 < δ ≤ 1`). -/
theorem alphaInvD_step (δ w h : ℚ) (s : StarD) (hδ0 : 0 < δ) (hδ1 : δ ≤ 1)
    (hinv : alphaInvD δ s.alpha s.delta) :
    alphaInvD δ (updateStarD w h s).alpha (updateStarD w h s).delta := by
  obtain ⟨hsign, hband⟩ := hinv
  rw [alphaInvD, updateStarD_alpha, updateStarD_delta]
  constructor
  · split_ifs with hf
    · rcases hsign with hd | hd <;> rw [hd] <;> simp
    · exact hsign
  · rcases hsign with hd | hd <;>
      rcases hband with ⟨h1, h2⟩ | ⟨h1, h2, h3⟩ | ⟨h1, h2, h3⟩ <;>
      split_ifs with hf
    · -- in band, d = δ, flip: alpha reached the top of the band
      rcases hf with hf | hf
      · exact absurd hf (by rw [hd] at *; linarith)
      · right; left; rw [hd] at *; exact ⟨hf, by linarith, rfl⟩
    · -- in band, d = δ, no flip
      push_neg at hf
      left; rw [hd] at *; constructor <;> linarith
    · -- above band (d should be -δ but d = δ): degenerate, δ = 0
      rw [hd] at h3
      exact absurd h3 (by intro hc; nlinarith)
    · rw [hd] at h3
      exact absurd h3 (by intro hc; nlinarith)
    · -- below band, d = δ, flip: alpha lands back at the bottom (or top if δ = 1)
      rcases hf with hf | hf
      · left; rw [hd] at *; constructor <;> linarith
      · left; rw [hd] at *; constructor <;> linarith
    · -- below band, d = δ, no flip
      push_neg at hf
      left; rw [hd] at *; constructor <;> linarith
    · -- in band, d = -δ, flip: alpha reached the bottom of the band
      rcases hf with hf | hf
      · right; right; rw [hd] at *; exact ⟨by linarith, hf, by simp⟩
      · left; rw [hd] at *; constructor <;> linarith
    · -- in band, d = -δ, no flip
      push_neg at hf
      left; rw [hd] at *; constructor <;> linarith
    · -- above band, d = -δ, flip: alpha lands back at the top (or bottom if δ = 1)
      rcases hf with hf | hf
      · left; rw [hd] at *; constructor <;> linarith
      · left; rw [hd] at *; constructor <;> linarith
    · -- above band, d = -δ, no flip
      push_neg at hf
      left; rw [hd] at *; constructor <;> linarith
    · -- below band (d should be δ but d = -δ): degenerate, δ = 0
      rw [hd] at h3
      exact absurd h3 (by intro hc; nlinarith)
    · rw [hd] at h3
      exact absurd h3 (by intro hc; nlinarith)

/-- The brightness invariant is preserved by any number of frames. -/
theorem alphaInvD_iter (δ w h : ℚ) (s : StarD) (n : ℕ) (hδ0 : 0 < δ)
    (hδ1 : δ ≤ 1) (hinv : alphaInvD δ s.alpha s.delta) :
    alphaInvD δ (iterStarD w h n s).alpha (iterStarD w h n s).delta := by
  induction n with
  | zero => exact hinv
  | succ n ih => exact alphaInvD_step δ w h _ hδ0 hδ1 ih

/-- The brightness invariant bounds `alpha` by one step beyond the band. -/
theorem alphaInvD_bounds (δ a d : ℚ) (hδ0 : 0 < δ)
    (hinv : alphaInvD δ a d) : -δ ≤ a ∧ a ≤ 1 + δ := by
  rcases hinv.2 with ⟨h1, h2⟩ | ⟨h1, h2, _⟩ | ⟨h1, h2, _⟩ <;>
    constructor <;> linarith

/-! ## Multi-layer parallax variant (`src/unnamed/part_003`, second document) -/

/-- Star record of the multi-layer variant. -/
structure Star3 where
  x : ℚ
  y : ℚ
  r : ℚ
  alpha : ℚ
  twinkleSpeed : ℚ
  deriving DecidableEq, Repr

/-- Static configuration of one depth layer. -/
structure LayerCfg where
  count : ℕ
  speedY : ℚ
  parallax : ℚ
  blur : ℚ
  deriving DecidableEq, Repr

/-- The `LAYER_CONFIGS` constant of the multi-layer variant. -/
def LAYER_CONFIGS : List LayerCfg :=
  [⟨170, 0.06, 0.3, 1⟩, ⟨170, 0.10, 0.6, 2⟩, ⟨140, 0.18, 1.0, 3⟩]

/-- Depth factor per layer index: `i === 0 ? 0.7 : i === 1 ? 1 : 1.4`. -/
def depthFactor (i : ℕ) : ℚ :=
  if i = 0 then 0.7 else if i = 1 then 1 else 1.4

/-- One generated star of the multi-layer variant, from five draws:
`x = rx*width`, `y = ry*height`, `r = (rr*1.2 + 0.3)*depthFactor`,
`alpha = ra*0.8 + 0.2`, `twinkleSpeed = (rtw*0.010 + 0.002)*depthFactor`. -/
def mkStar3 (w h df rx ry rr ra rtw : ℚ) : Star3 :=
  { x := rx * w, y := ry * h, r := (rr * 1.2 + 0.3) * df,
    alpha := ra * 0.8 + 0.2, twinkleSpeed := (rtw * 0.010 + 0.002) * df }

/-- The inner generation loop of `createStars` (multi-layer variant) for one
layer: `count` stars at depth index `i`, each consuming five draws. -/
def layerStars (rng : ℕ → ℚ) (w h : ℚ) (i : ℕ) (count : ℕ) : List Star3 :=
  (List.range count).map fun sIdx =>
    mkStar3 w h (depthFactor i) (rng (5 * sIdx)) (rng (5 * sIdx + 1))
      (rng (5 * sIdx + 2)) (rng (5 * sIdx + 3)) (rng (5 * sIdx + 4))

/-- The whole `createStars` of the multi-layer variant: the three layers of
`LAYER_CONFIGS`, drawing from one sequential random stream (layers 0 and 1
consume 5·170 = 850 draws each). -/
def createStars3 (rng : ℕ → ℚ) (w h : ℚ) : List (List Star3) :=
  [layerStars rng w h 0 170,
   layerStars (fun k => rng (850 + k)) w h 1 170,
   layerStars (fun k => rng (1700 + k)) w h 2 140]

/-- Per-frame update of one star in the multi-layer variant (`animate` body):
fall `y += speedY`, wrap to `y = -10` with a fresh random `x` when
`y > height + 10`; then twinkle `alpha += twinkleSpeed` with sign flip when
`alpha > 1 || alpha < 0.15`.  `rx` is the random draw used for the respawn
`x` (consumed only on wrap). -/
def updateStar3 (w h speedY rx : ℚ) (st : Star3) : Star3 :=
  let y1 := st.y + speedY
  let a := st.alpha + st.twinkleSpeed
  let tw := if a > 1 ∨ a < 0.15 then -st.twinkleSpeed else st.twinkleSpeed
  { x := if y1 > h + 10 then rx * w else st.x,
    y := if y1 > h + 10 then -10 else y1,
    r := st.r, alpha := a, twinkleSpeed := tw }

/-- Iterated per-frame update of the multi-layer variant; frame `n` is
applied last and draws its respawn `x` from `rng n`. -/
def iterStar3 (w h speedY : ℚ) (rng : ℕ → ℚ) : ℕ → Star3 → Star3
  | 0, st => st
  | n + 1, st => updateStar3 w h speedY (rng n) (iterStar3 w h speedY rng n st)

/-- Number of bottom-edge wraps a star performs during the first `n` frames
(frame `k` wraps exactly when the star's `y` before that frame satisfies
`y + speedY > height + 10`). -/
def wrapCount (w h speedY : ℚ) (rng : ℕ → ℚ) : ℕ → Star3 → ℕ
  | 0, _ => 0
  | n + 1, st =>
      wrapCount w h speedY rng n st +
        (if (iterStar3 w h speedY rng n st).y + speedY > h + 10 then 1 else 0)

theorem updateStar3_alpha (w h speedY rx : ℚ) (st : Star3) :
    (updateStar3 w h speedY rx st).alpha = st.alpha + st.twinkleSpeed := rfl

theorem updateStar3_tw (w h speedY rx : ℚ) (st : Star3) :
    (updateStar3 w h speedY rx st).twinkleSpeed =
      if st.alpha + st.twinkleSpeed > 1 ∨ st.alpha + st.twinkleSpeed < 0.15
      then -st.twinkleSpeed else st.twinkleSpeed := rfl

theorem updateStar3_y (w h speedY rx : ℚ) (st : Star3) :
    (updateStar3 w h speedY rx st).y =
      if st.y + speedY > h + 10 then -10 else st.y + speedY := rfl

/-- Brightness invariant of the multi-layer variant (band `[0.15, 1]`): the
rate has constant magnitude `δ` and `alpha` is inside the band, or at most
one step above with the rate pointing down, or at most one step below with
the rate pointing up. -/
def alphaInv3 (δ a d : ℚ) : Prop :=
  (d = δ ∨ d = -δ) ∧
    ((0.15 ≤ a ∧ a ≤ 1) ∨ (1 < a ∧ a ≤ 1 + δ ∧ d = -δ) ∨
      (0.15 - δ ≤ a ∧ a < 0.15 ∧ d = δ))

/-- The per-frame update of the multi-layer variant preserves the brightness
invariant (for a step `0 < δ ≤ 0.85`, the band width). -/
theorem alphaInv3_step (δ w h speedY rx : ℚ) (st : Star3) (hδ0 : 0 < δ)
    (hδ1 : δ ≤ 0.85) (hinv : alphaInv3 δ st.alpha st.twinkleSpeed) :
    alphaInv3 δ (updateStar3 w h speedY rx st).alpha
      (updateStar3 w h speedY rx st).twinkleSpeed := by
  obtain ⟨hsign, hband⟩ := hinv
  rw [alphaInv3, updateStar3_alpha, updateStar3_tw]
  constructor
  · split_ifs with hf
    · rcases hsign with hd | hd <;> rw [hd] <;> simp
    · exact hsign
  · rcases hsign with hd | hd <;>
      rcases hband with ⟨h1, h2⟩ | ⟨h1, h2, h3⟩ | ⟨h1, h2, h3⟩ <;>
      split_ifs with hf
    · -- in band, d = δ, flip: alpha exceeded the top of the band
      rcases hf with hf | hf
      · right; left; rw [hd] at *; exact ⟨hf, by linarith, rfl⟩
      · exact absurd hf (by rw [hd] at *; linarith)
    · -- in band, d = δ, no flip
      push_neg at hf
      left; rw [hd] at *; constructor <;> linarith
    · -- above band (d should be -δ but d = δ): degenerate, δ = 0
      rw [hd] at h3
      exact absurd h3 (by intro hc; nlinarith)
    · rw [hd] at h3
      exact absurd h3 (by intro hc; nlinarith)
    · -- below band, d = δ, flip: impossible, the step lands inside the band
      rcases hf with hf | hf <;> rw [hd] at * <;> exact absurd hf (by linarith)
    · -- below band, d = δ, no flip: lands inside the band
      left; rw [hd] at *; constructor <;> linarith
    · -- in band, d = -δ, flip: alpha fell below the bottom of the band
      rcases hf with hf | hf
      · exact absurd hf (by rw [hd] at *; linarith)
      · right; right; rw [hd] at *; exact ⟨by linarith, hf, by simp⟩
    · -- in band, d = -δ, no flip
      push_neg at hf
      left; rw [hd] at *; constructor <;> linarith
    · -- above band, d = -δ, flip: impossible, the step lands inside the band
      rcases hf with hf | hf <;> rw [hd] at * <;> exact absurd hf (by linarith)
    · -- above band, d = -δ, no flip: lands inside the band
      left; rw [hd] at *; constructor <;> linarith
    · -- below band (d should be δ but d = -δ): degenerate, δ = 0
      rw [hd] at h3
      exact absurd h3 (by intro hc; nlinarith)
    · rw [hd] at h3
      exact absurd h3 (by intro hc; nlinarith)

/-- The multi-layer brightness invariant is preserved by any number of
frames. -/
theorem alphaInv3_iter (δ w h speedY : ℚ) (rng : ℕ → ℚ) (st : Star3) (n : ℕ)
    (hδ0 : 0 < δ) (hδ1 : δ ≤ 0.85)
    (hinv : alphaInv3 δ st.alpha st.twinkleSpeed) :
    alphaInv3 δ (iterStar3 w h speedY rng n st).alpha
      (iterStar3 w h speedY rng n st).twinkleSpeed := by
  induction n with
  | zero => exact hinv
  | succ n ih => exact alphaInv3_step δ w h speedY (rng n) _ hδ0 hδ1 ih

/-- The multi-layer brightness invariant bounds `alpha` by one step beyond
the `[0.15, 1]` band. -/
theorem alphaInv3_bounds (δ a d : ℚ) (hδ0 : 0 < δ)
    (hinv : alphaInv3 δ a d) : 0.15 - δ ≤ a ∧ a ≤ 1 + δ := by
  rcases hinv.2 with ⟨h1, h2⟩ | ⟨h1, h2, _⟩ | ⟨h1, h2, _⟩ <;>
    constructor <;> linarith

/-! ## Wrap counting for the multi-layer fall (claim C5) -/

/-- Splitting an iterated run: the last `n` of `m + n` frames run from the
intermediate state, drawing from the shifted random stream. -/
theorem iterStar3_add (w h speedY : ℚ) (rng : ℕ → ℚ) (m n : ℕ) (st : Star3) :
    iterStar3 w h speedY rng (m + n) st =
      iterStar3 w h speedY (fun i => rng (m + i)) n
        (iterStar3 w h speedY rng m st) := by
  induction n with
  | zero => rfl
  | succ n ih => rw [← Nat.add_assoc, iterStar3, ih, iterStar3]

/-- Splitting a wrap count at an intermediate frame. -/
theorem wrapCount_add (w h speedY : ℚ) (rng : ℕ → ℚ) (m n : ℕ) (st : Star3) :
    wrapCount w h speedY rng (m + n) st =
      wrapCount w h speedY rng m st +
        wrapCount w h speedY (fun i => rng (m + i)) n
          (iterStar3 w h speedY rng m st) := by
  induction n with
  | zero => rfl
  | succ n ih =>
      rw [← Nat.add_assoc, wrapCount, ih, wrapCount, iterStar3_add,
        Nat.add_assoc]

/-- Wrap counts are monotone in the number of frames. -/
theorem wrapCount_mono (w h speedY : ℚ) (rng : ℕ → ℚ) (m n : ℕ) (st : Star3)
    (hmn : m ≤ n) :
    wrapCount w h speedY rng m st ≤ wrapCount w h speedY rng n st := by
  obtain ⟨k, rfl⟩ := Nat.le.dest hmn
  rw [wrapCount_add]
  exact Nat.le_add_right _ _

/-- While no wrap has occurred, `y` grows linearly. -/
theorem iterStar3_y_of_no_wrap (w h speedY : ℚ) (rng : ℕ → ℚ) (n : ℕ)
    (st : Star3) (h0 : wrapCount w h speedY rng n st = 0) :
    (iterStar3 w h speedY rng n st).y = st.y + n * speedY := by
  induction n with
  | zero => simp [iterStar3]
  | succ n ih =>
      rw [wrapCount] at h0
      obtain ⟨hc0, hind⟩ := Nat.add_eq_zero.mp h0
      have hno : ¬ (iterStar3 w h speedY rng n st).y + speedY > h + 10 := by
        intro hgt
        simp [if_pos hgt] at hind
      rw [iterStar3, updateStar3_y, if_neg hno, ih hc0]
      push_cast
      ring

/-- Conversely, while the linear trajectory stays at most `10` below the
bottom margin, no wrap occurs. -/
theorem wrapCount_eq_zero (w h speedY : ℚ) (rng : ℕ → ℚ) (n : ℕ) (st : Star3)
    (hs : 0 < speedY) (hy : st.y + n * speedY ≤ h + 10) :
    wrapCount w h speedY rng n st = 0 := by
  induction n with
  | zero => rfl
  | succ n ih =>
      have hy' : st.y + n * speedY ≤ h + 10 := by
        have : (n : ℚ) * speedY ≤ (n + 1 : ℕ) * speedY := by
          push_cast
          nlinarith
        linarith
      have hc0 := ih hy'
      rw [wrapCount, hc0, iterStar3_y_of_no_wrap w h speedY rng n st hc0]
      have : ¬ st.y + n * speedY + speedY > h + 10 := by
        push_cast at hy ⊢
        linarith
      simp [this]

/-- The star's `y` never falls below the respawn line `-10`. -/
theorem iterStar3_y_lower (w h speedY : ℚ) (rng : ℕ → ℚ) (n : ℕ) (st : Star3)
    (hs : 0 < speedY) (hy : -10 ≤ st.y) :
    -10 ≤ (iterStar3 w h speedY rng n st).y := by
  induction n with
  | zero => exact hy
  | succ n ih =>
      rw [iterStar3, updateStar3_y]
      split_ifs with hgt
      · linarith
      · linarith

/-- In any window of `K` frames whose total travel exceeds the wrap span
`height + 20`, at least one wrap occurs. -/
theorem one_wrap_per_window (w h speedY : ℚ) (rng : ℕ → ℚ) (K : ℕ)
    (st : Star3) (hh : 0 < h) (_hs : 0 < speedY) (hy : -10 ≤ st.y)
    (hK : h + 20 < K * speedY) :
    1 ≤ wrapCount w h speedY rng K st := by
  cases K with
  | zero =>
      exfalso
      push_cast at hK
      linarith
  | succ k =>
      by_contra hcon
      push_neg at hcon
      interval_cases hw : wrapCount w h speedY rng (k + 1) st
      rw [wrapCount] at hw
      obtain ⟨hc0, hind⟩ := Nat.add_eq_zero.mp hw
      have hyk := iterStar3_y_of_no_wrap w h speedY rng k st hc0
      have hno : ¬ (iterStar3 w h speedY rng k st).y + speedY > h + 10 := by
        intro hgt
        simp [if_pos hgt] at hind
      rw [hyk] at hno
      push_cast at hno hK
      nlinarith

/-- Over `m` windows of `K` frames each, at least `m` wraps occur. -/
theorem wraps_per_windows (w h speedY : ℚ) (rng : ℕ → ℚ) (K m : ℕ)
    (st : Star3) (hh : 0 < h) (hs : 0 < speedY) (hy : -10 ≤ st.y)
    (hK : h + 20 < K * speedY) :
    m ≤ wrapCount w h speedY rng (m * K) st := by
  induction m generalizing rng st with
  | zero => exact Nat.zero_le _
  | succ m ih =>
      have hsplit : (m + 1) * K = K + m * K := by ring
      rw [hsplit, wrapCount_add]
      have h1 := one_wrap_per_window w h speedY rng K st hh hs hy hK
      have h2 := ih (fun i => rng (K + i)) (iterStar3 w h speedY rng K st)
        (iterStar3_y_lower w h speedY rng K st hs hy)
      omega

/-! ## Surface manager (the `resize` handlers) -/

/-- Canvas surface state: backing-store resolution (`canvas.width/height`),
CSS layout size (`canvas.style.width/height`), and the drawing transform set
by `ctx.setTransform(a, b, c, d, e, f)`. -/
structure Surface where
  backingW : ℚ
  backingH : ℚ
  styleW : ℚ
  styleH : ℚ
  ta : ℚ
  tb : ℚ
  tc : ℚ
  td : ℚ
  te : ℚ
  tf : ℚ
  deriving DecidableEq, Repr

/-- The dpr-aware `resize` of `StarField.tsx` and of the multi-layer variant:
`canvas.style = logical size`, `canvas.width/height = logical * dpr`,
`ctx.setTransform(dpr, 0, 0, dpr, 0, 0)`.  It overwrites every field of the
previous surface state. -/
def resizeSurface (w h dpr : ℚ) (_prev : Surface) : Surface :=
  { backingW := w * dpr, backingH := h * dpr, styleW := w, styleH := h,
    ta := dpr, tb := 0, tc := 0, td := dpr, te := 0, tf := 0 }

/-- Device position of a logical drawing coordinate under the surface's
current transform. -/
def applyTransform (s : Surface) (x y : ℚ) : ℚ × ℚ :=
  (s.ta * x + s.tc * y + s.te, s.tb * x + s.td * y + s.tf)

/-- Component state of the drifting single-layer variant: surface plus the
mutable `stars` array. -/
structure TsxState where
  surface : Surface
  stars : List StarD

/-- The full `resize` handler of `StarField.tsx`: reconfigure the surface,
then `createStars()` with the new dimensions. -/
def resizeTsx (rng : ℕ → ℚ) (w h dpr : ℚ) (st : TsxState) : TsxState :=
  { surface := resizeSurface w h dpr st.surface, stars := createStars rng w h }

/-- Component state of the multi-layer variant. -/
structure State3 where
  surface : Surface
  layers : List (List Star3)

/-- The full `resize` handler of the multi-layer variant: reconfigure the
surface, then `createStars()` (multi-layer) with the new dimensions. -/
def resize3 (rng : ℕ → ℚ) (w h dpr : ℚ) (st : State3) : State3 :=
  { surface := resizeSurface w h dpr st.surface, layers := createStars3 rng w h }

/-- Star record of the simplest variants (`part_004` and the first variant
in `part_003`): no drift velocity. -/
structure StarS where
  x : ℚ
  y : ℚ
  r : ℚ
  alpha : ℚ
  delta : ℚ
  deriving DecidableEq, Repr

/-- One generated star of `part_004`, from five draws against the
mount-time canvas size: `x = r1*canvas.width`, `y = r2*canvas.height`,
`r = r3*1.5 + 0.2`, `alpha = r4`, `delta = r5*0.02 + 0.005`. -/
def mkStarP4 (cw ch r1 r2 r3 r4 r5 : ℚ) : StarS :=
  { x := r1 * cw, y := r2 * ch, r := r3 * 1.5 + 0.2, alpha := r4,
    delta := r5 * 0.02 + 0.005 }

/-- Component state of `part_004`: raw canvas size (no dpr handling) and the
star list. -/
structure P4State where
  cw : ℚ
  ch : ℚ
  stars : List StarS
  deriving DecidableEq, Repr

/-- The `resize` handler of `part_004`: it only reassigns `canvas.width` and
`canvas.height`; the star list is left untouched. -/
def resizeP4 (w h : ℚ) (st : P4State) : P4State :=
  { cw := w, ch := h, stars := st.stars }

/-! ## Host environment: listeners and scheduled frame callbacks -/

/-- Host (window) state: the registered event listeners and the pending
animation-frame callback, if any, identified by its handle. -/
structure Host where
  listeners : List String
  pending : Option ℕ
  deriving DecidableEq, Repr

/-- `window.requestAnimationFrame`: schedules the callback, returning state
with the new pending handle. -/
def requestFrame (id : ℕ) (h : Host) : Host :=
  { h with pending := some id }

/-- `window.cancelAnimationFrame(id)`: cancels the pending callback when its
handle matches; a stale or unknown handle is ignored (per the host API this
never throws). -/
def cancelFrame (id : ℕ) (h : Host) : Host :=
  { h with pending := if h.pending = some id then none else h.pending }

/-- `window.addEventListener(ev, handler)`. -/
def addListener (ev : String) (h : Host) : Host :=
  { h with listeners := h.listeners ++ [ev] }

/-- `window.removeEventListener(ev, handler)`: removes the registration if
present, and is a no-op otherwise (per the host API this never throws). -/
def removeListener (ev : String) (h : Host) : Host :=
  { h with listeners := h.listeners.erase ev }

/-- The mount effect of `StarField.tsx`, host-visible part: registers the
resize listener and schedules the first animation frame. -/
def mountTsx (id : ℕ) (h : Host) : Host :=
  requestFrame id (addListener "resize" h)

/-- The `useEffect` cleanup of `StarField.tsx` (the engine's `stop`/`detach`):
`removeEventListener("resize", handleResize); cancelAnimationFrame(id)`. -/
def cleanupTsx (id : ℕ) (h : Host) : Host :=
  cancelFrame id (removeListener "resize" h)

/-- The mount effect of `part_004` (and of the first `part_003` variant),
host-visible part: registers the resize listener and starts the
self-rescheduling `requestAnimationFrame(animate)` loop, whose pending
callback handle is never stored. -/
def mountP4 (id : ℕ) (h : Host) : Host :=
  requestFrame id (addListener "resize" h)

/-- The `useEffect` cleanup of `part_004` (and of the first `part_003`
variant): only `removeEventListener("resize", resize)` — there is no
`cancelAnimationFrame`, so the pending frame callback is left in place. -/
def cleanupP4 (h : Host) : Host :=
  removeListener "resize" h

/-! ## Start semantics (effect body) of the variants -/

/-- Outcome of running the mount effect: early no-op return, successful
start of the loop, or a thrown exception escaping the effect. -/
inductive StartOutcome where
  | noop : StartOutcome
  | started : StartOutcome
  | threw : String → StartOutcome
  deriving DecidableEq, Repr

/-- Effect body of the guarded variants (`StarField.tsx` and both `part_003`
variants): `if (!canvas) return; const ctx = canvas.getContext("2d");
if (!ctx) return;` — a missing canvas or context is an early no-op return. -/
def startGuarded (canvas ctx2d : Option Unit) : StartOutcome :=
  match canvas with
  | none => .noop
  | some _ =>
      match ctx2d with
      | none => .noop
      | some _ => .started

/-- Effect body of `part_004`: `const canvas = canvasRef.current;
const ctx = canvas.getContext("2d");` with no null checks — a missing canvas
makes `canvas.getContext` throw, and a missing context makes the first
member access on `ctx` (in `resize`/`animate`, both invoked synchronously)
throw. -/
def startP4 (canvas ctx2d : Option Unit) : StartOutcome :=
  match canvas with
  | none => .threw "TypeError: canvas is null"
  | some _ =>
      match ctx2d with
      | none => .threw "TypeError: ctx is null"
      | some _ => .started

/-- One scheduled frame callback of `StarField.tsx`, with the JS-partial
operations made explicit in `Except`: the body re-checks the canvas
(`if (!canvas) return;`, early `ok` without rescheduling) and otherwise
performs only total arithmetic and canvas calls; the returned `Bool` records
whether the callback rescheduled itself. -/
def animateTsxE (canvas : Option Unit) (w h : ℚ) (stars : List StarD) :
    Except String (List StarD × Bool) :=
  match canvas with
  | none => .ok (stars, false)
  | some _ => .ok (stars.map (updateStarD w h), true)

/-! ## Paint trace of one multi-layer frame -/

/-- One `ctx.arc`/`ctx.fill` call issued during a frame: the layer index it
was painted for, the device position after the layer's parallax translate,
the radius and the fill alpha. -/
structure Paint where
  layer : ℕ
  px : ℚ
  py : ℚ
  pr : ℚ
  pa : ℚ
  deriving DecidableEq, Repr

/-- The `layers.forEach` of the multi-layer `animate`: each layer in
sequence updates its stars and paints each of them translated by the shared
camera drift `(bpx, bpy)` scaled by the layer's parallax.  `i` is the index
of the first remaining layer; `rngs l s` is the respawn draw for star `s` of
layer `l`. -/
def framePaintsAux (w h bpx bpy : ℚ) (rngs : ℕ → ℕ → ℚ) (i : ℕ) :
    List (LayerCfg × List Star3) → List Paint
  | [] => []
  | (cfg, stars) :: rest =>
      (stars.enum.map fun q =>
        let st := updateStar3 w h cfg.speedY (rngs i q.1) q.2
        { layer := i, px := st.x + bpx * cfg.parallax,
          py := st.y + bpy * cfg.parallax, pr := st.r, pa := st.alpha }) ++
      framePaintsAux w h bpx bpy rngs (i + 1) rest

/-- Paint trace of one whole frame of the multi-layer variant. -/
def framePaints (w h bpx bpy : ℚ) (rngs : ℕ → ℕ → ℚ)
    (layers : List (LayerCfg × List Star3)) : List Paint :=
  framePaintsAux w h bpx bpy rngs 0 layers

/-- Every paint emitted from the tail of the layer list carries a layer
index at least the starting index. -/
theorem framePaintsAux_layer_ge (w h bpx bpy : ℚ) (rngs : ℕ → ℕ → ℚ)
    (i : ℕ) (ls : List (LayerCfg × List Star3)) :
    ∀ p ∈ framePaintsAux w h bpx bpy rngs i ls, i ≤ p.layer := by
  induction ls generalizing i with
  | nil => intro p hp; simp [framePaintsAux] at hp
  | cons hd tl ih =>
      intro p hp
      obtain ⟨cfg, stars⟩ := hd
      rw [framePaintsAux, List.mem_append] at hp
      rcases hp with hp | hp
      · obtain ⟨q, _, rfl⟩ := List.mem_map.mp hp
        exact le_refl i
      · exact Nat.le_of_succ_le (ih (i + 1) p hp)

/-- A list of a repeated element is sorted. -/
theorem sorted_replicate (n : ℕ) (a : ℕ) :
    (List.replicate n a).Sorted (· ≤ ·) := by
  show (List.replicate n a).Pairwise (· ≤ ·)
  exact List.pairwise_replicate.mpr (Or.inr (le_refl a))

/-- The layer indices along the frame's paint trace are nondecreasing:
layers are painted strictly in their sequence order. -/
theorem framePaintsAux_sorted (w h bpx bpy : ℚ) (rngs : ℕ → ℕ → ℚ)
    (i : ℕ) (ls : List (LayerCfg × List Star3)) :
    ((framePaintsAux w h bpx bpy rngs i ls).map Paint.layer).Sorted
      (· ≤ ·) := by
  induction ls generalizing i with
  | nil => simp [framePaintsAux]
  | cons hd tl ih =>
      obtain ⟨cfg, stars⟩ := hd
      rw [framePaintsAux, List.map_append]
      refine List.pairwise_append.mpr ⟨?_, ih (i + 1), ?_⟩
      · have hrep : ((stars.enum.map fun q =>
            let st := updateStar3 w h cfg.speedY (rngs i q.1) q.2
            (⟨i, st.x + bpx * cfg.parallax, st.y + bpy * cfg.parallax,
              st.r, st.alpha⟩ : Paint)).map Paint.layer) =
            List.replicate stars.enum.length i := by
          apply List.eq_replicate_iff.mpr
          constructor
          · simp
          · intro b hb
            simp only [List.map_map, List.mem_map, Function.comp] at hb
            obtain ⟨q, _, rfl⟩ := hb
            rfl
        rw [hrep]
        exact sorted_replicate _ i
      · intro a ha b hb
        simp only [List.map_map, List.mem_map, Function.comp] at ha
        obtain ⟨q, _, rfl⟩ := ha
        obtain ⟨p, hp, rfl⟩ := List.mem_map.mp hb
        exact Nat.le_of_succ_le
          (framePaintsAux_layer_ge w h bpx bpy rngs (i + 1) tl p hp)

/-! ## Bounds of the generated fields -/

theorem depthFactor_pos (i : ℕ) : 0 < depthFactor i := by
  unfold depthFactor
  split_ifs <;> norm_num

/-- Position and size bounds of one generated star of the drifting
single-layer variant. -/
theorem mkStarD_bounds (w h r1 r2 r3 r4 r5 r6 r7 : ℚ) (hw : 0 < w)
    (hh : 0 < h) (h1 : 0 ≤ r1) (h1' : r1 < 1) (h2 : 0 ≤ r2) (h2' : r2 < 1)
    (h3 : 0 ≤ r3) :
    0 ≤ (mkStarD w h r1 r2 r3 r4 r5 r6 r7).x ∧
      (mkStarD w h r1 r2 r3 r4 r5 r6 r7).x < w ∧
      0 ≤ (mkStarD w h r1 r2 r3 r4 r5 r6 r7).y ∧
      (mkStarD w h r1 r2 r3 r4 r5 r6 r7).y < h ∧
      0 < (mkStarD w h r1 r2 r3 r4 r5 r6 r7).r := by
  refine ⟨mul_nonneg h1 hw.le, ?_, mul_nonneg h2 hh.le, ?_, ?_⟩
  · show r1 * w < w
    nlinarith
  · show r2 * h < h
    nlinarith
  · show 0 < r3 * 1.4 + 0.3
    nlinarith

/-- Position and size bounds of one generated star of the multi-layer
variant. -/
theorem mkStar3_bounds (w h df rx ry rr ra rtw : ℚ) (hw : 0 < w)
    (hh : 0 < h) (hdf : 0 < df) (hx : 0 ≤ rx) (hx' : rx < 1) (hy : 0 ≤ ry)
    (hy' : ry < 1) (hr : 0 ≤ rr) :
    0 ≤ (mkStar3 w h df rx ry rr ra rtw).x ∧
      (mkStar3 w h df rx ry rr ra rtw).x < w ∧
      0 ≤ (mkStar3 w h df rx ry rr ra rtw).y ∧
      (mkStar3 w h df rx ry rr ra rtw).y < h ∧
      0 < (mkStar3 w h df rx ry rr ra rtw).r := by
  refine ⟨mul_nonneg hx hw.le, ?_, mul_nonneg hy hh.le, ?_, ?_⟩
  · show rx * w < w
    nlinarith
  · show ry * h < h
    nlinarith
  · show 0 < (rr * 1.2 + 0.3) * df
    nlinarith

/-- Twinkle-rate band of one generated star of the multi-layer variant:
inside `[0.002*depthFactor, 0.012*depthFactor)`, and in particular strictly
positive — the generator never draws a negative sign. -/
theorem mkStar3_twinkle (w h df rx ry rr ra rtw : ℚ) (hdf : 0 < df)
    (ht : 0 ≤ rtw) (ht' : rtw < 1) :
    0.002 * df ≤ (mkStar3 w h df rx ry rr ra rtw).twinkleSpeed ∧
      (mkStar3 w h df rx ry rr ra rtw).twinkleSpeed < 0.012 * df ∧
      0 < (mkStar3 w h df rx ry rr ra rtw).twinkleSpeed := by
  refine ⟨?_, ?_, ?_⟩
  · show 0.002 * df ≤ (rtw * 0.010 + 0.002) * df
    nlinarith
  · show (rtw * 0.010 + 0.002) * df < 0.012 * df
    nlinarith
  · show 0 < (rtw * 0.010 + 0.002) * df
    nlinarith

/-- Every star of a generated layer lies inside the viewport with a positive
radius. -/
theorem layerStars_bounds (rng : ℕ → ℚ) (w h : ℚ) (i count : ℕ)
    (hrng : ∀ n, 0 ≤ rng n ∧ rng n < 1) (hw : 0 < w) (hh : 0 < h) :
    ∀ st ∈ layerStars rng w h i count,
      0 ≤ st.x ∧ st.x < w ∧ 0 ≤ st.y ∧ st.y < h ∧ 0 < st.r := by
  intro st hst
  rw [layerStars, List.mem_map] at hst
  obtain ⟨sIdx, _, rfl⟩ := hst
  exact mkStar3_bounds w h _ _ _ _ _ _ hw hh (depthFactor_pos i)
    (hrng _).1 (hrng _).2 (hrng _).1 (hrng _).2 (hrng _).1

/-- Every star of the drifting single-layer field lies inside the viewport
with a positive radius. -/
theorem createStars_bounds (rng : ℕ → ℚ) (w h : ℚ)
    (hrng : ∀ n, 0 ≤ rng n ∧ rng n < 1) (hw : 0 < w) (hh : 0 < h) :
    ∀ st ∈ createStars rng w h,
      0 ≤ st.x ∧ st.x < w ∧ 0 ≤ st.y ∧ st.y < h ∧ 0 < st.r := by
  intro st hst
  rw [createStars, List.mem_map] at hst
  obtain ⟨i, _, rfl⟩ := hst
  exact mkStarD_bounds w h _ _ _ _ _ _ _ hw hh
    (hrng _).1 (hrng _).2 (hrng _).1 (hrng _).2 (hrng _).1

/-- Every star of every generated multi-layer field lies inside the viewport
with a positive radius. -/
theorem createStars3_bounds (rng : ℕ → ℚ) (w h : ℚ)
    (hrng : ∀ n, 0 ≤ rng n ∧ rng n < 1) (hw : 0 < w) (hh : 0 < h) :
    ∀ layer ∈ createStars3 rng w h, ∀ st ∈ layer,
      0 ≤ st.x ∧ st.x < w ∧ 0 ≤ st.y ∧ st.y < h ∧ 0 < st.r := by
  intro layer hl
  rw [createStars3] at hl
  simp only [List.mem_cons, List.not_mem_nil, or_false] at hl
  rcases hl with rfl | rfl | rfl <;>
    exact layerStars_bounds _ w h _ _ (fun n => hrng _) hw hh

/-! ## Spec-side definition for claim C9 (refinement comparison) -/

/-- Spec-side reading of "twinkle rate sign randomized at generation": if
the generator randomized the sign, some admissible random stream would
produce a star with a negative initial twinkle rate.  This definition
follows the spec's words and is compared against the source-translated
generator `createStars3`. -/
def specTwinkleSignRandomized : Prop :=
  ∃ rng : ℕ → ℚ, (∀ n, 0 ≤ rng n ∧ rng n < 1) ∧
    ∃ layer ∈ createStars3 rng 800 600, ∃ st ∈ layer, st.twinkleSpeed < 0

/-- Every generated multi-layer star has a strictly positive twinkle rate,
whatever the random stream. -/
theorem createStars3_twinkle_pos (rng : ℕ → ℚ) (w h : ℚ)
    (hrng : ∀ n, 0 ≤ rng n ∧ rng n < 1) :
    ∀ layer ∈ createStars3 rng w h, ∀ st ∈ layer, 0 < st.twinkleSpeed := by
  intro layer hl st hst
  rw [createStars3] at hl
  simp only [List.mem_cons, List.not_mem_nil, or_false] at hl
  have hgen : ∀ (rng' : ℕ → ℚ) (i count : ℕ), (∀ n, 0 ≤ rng' n ∧ rng' n < 1) →
      st ∈ layerStars rng' w h i count → 0 < st.twinkleSpeed := by
    intro rng' i count hr hmem
    rw [layerStars, List.mem_map] at hmem
    obtain ⟨sIdx, _, rfl⟩ := hmem
    exact (mkStar3_twinkle w h _ _ _ _ _ _ (depthFactor_pos i)
      (hr _).1 (hr _).2).2.2
  rcases hl with rfl | rfl | rfl
  · exact hgen rng 0 170 hrng hst
  · exact hgen (fun k => rng (850 + k)) 1 170 (fun n => hrng _) hst
  · exact hgen (fun k => rng (1700 + k)) 2 140 (fun n => hrng _) hst

/-! ## Claims -/

/-- Claim C1, counterexample: the sign of the twinkle rate is flipped only
after the increment has been applied, so the brightness can leave its band
by up to one step.  Both stars below are reachable outputs of the
generators (all random draws in `[0,1)`): in the drifting variant a star
with `alpha = 0.99` and `delta = 0.02` reaches `alpha = 1.01 > 1` after a
single frame; in the multi-layer variant a far-layer star with
`alpha = 0.9992` and `twinkleSpeed = 0.0077` reaches `alpha = 1.0069 > 1`. -/
theorem alpha_leaves_band_counterexample :
    1 < (updateStarD 800 600 (mkStarD 800 600 0 0 0 0.99 0.75 0.5 0.5)).alpha ∧
    1 < (updateStar3 800 600 0.06 0
        (mkStar3 800 600 0.7 0 0 0 0.999 0.9)).alpha := by
  constructor
  · rw [updateStarD_alpha]
    norm_num [mkStarD]
  · rw [updateStar3_alpha]
    norm_num [mkStar3]

/-- Claim C1 (amended): the brightness band is exceeded by at most one
twinkle step.  For every star starting inside its band with a rate of
magnitude `δ` (at most the band width), after an arbitrary number of
per-frame updates `alpha` stays within `[-δ, 1 + δ]` in the `[0,1]`-band
drifting variant and within `[0.15 - δ, 1 + δ]` in the multi-layer variant;
the rate's sign flips at the bounds so `alpha` re-enters the band on the
next frame. -/
theorem alpha_band_one_step_overshoot :
    (∀ (w h : ℚ) (s : StarD) (n : ℕ) (δ : ℚ), 0 < δ → δ ≤ 1 →
      (s.delta = δ ∨ s.delta = -δ) → 0 ≤ s.alpha → s.alpha ≤ 1 →
      -δ ≤ (iterStarD w h n s).alpha ∧ (iterStarD w h n s).alpha ≤ 1 + δ) ∧
    (∀ (w h speedY : ℚ) (rng : ℕ → ℚ) (st : Star3) (n : ℕ) (δ : ℚ),
      0 < δ → δ ≤ 0.85 →
      (st.twinkleSpeed = δ ∨ st.twinkleSpeed = -δ) →
      0.15 ≤ st.alpha → st.alpha ≤ 1 →
      0.15 - δ ≤ (iterStar3 w h speedY rng n st).alpha ∧
        (iterStar3 w h speedY rng n st).alpha ≤ 1 + δ) := by
  constructor
  · intro w h s n δ hδ0 hδ1 hsign ha0 ha1
    exact alphaInvD_bounds δ _ _ hδ0
      (alphaInvD_iter δ w h s n hδ0 hδ1 ⟨hsign, Or.inl ⟨ha0, ha1⟩⟩)
  · intro w h speedY rng st n δ hδ0 hδ1 hsign ha0 ha1
    exact alphaInv3_bounds δ _ _ hδ0
      (alphaInv3_iter δ w h speedY rng st n hδ0 hδ1
        ⟨hsign, Or.inl ⟨ha0, ha1⟩⟩)

/-- Claim C1, witness: the one-step-overshoot band bound evaluated on a
concrete drifting-variant star over three frames. -/
theorem alpha_band_one_step_overshoot_witness :
    -(0.01 : ℚ) ≤ (iterStarD 800 600 3 ⟨0, 0, 1, 0.5, 0.01, 0, 0⟩).alpha ∧
      (iterStarD 800 600 3 ⟨0, 0, 1, 0.5, 0.01, 0, 0⟩).alpha ≤ 1 + 0.01 :=
  alpha_band_one_step_overshoot.1 800 600 ⟨0, 0, 1, 0.5, 0.01, 0, 0⟩ 3 0.01
    (by norm_num) (by norm_num) (Or.inl rfl) (by norm_num) (by norm_num)

/-- Claim C2: for every layer configuration and admissible random stream,
one generator call produces exactly the configured number of particles, all
with `0 ≤ x < width`, `0 ≤ y < height` and `r > 0`: the generic per-layer
loop, the drifting variant's 450-star field, and the three layers
(170/170/140 stars) of the multi-layer field. -/
theorem generator_count_and_bounds :
    ∀ (rng : ℕ → ℚ) (w h : ℚ), (∀ n, 0 ≤ rng n ∧ rng n < 1) →
      0 < w → 0 < h →
      (∀ i count, (layerStars rng w h i count).length = count) ∧
      (createStars rng w h).length = 450 ∧
      (∀ st ∈ createStars rng w h,
        0 ≤ st.x ∧ st.x < w ∧ 0 ≤ st.y ∧ st.y < h ∧ 0 < st.r) ∧
      (createStars3 rng w h).map List.length = LAYER_CONFIGS.map LayerCfg.count ∧
      (∀ layer ∈ createStars3 rng w h, ∀ st ∈ layer,
        0 ≤ st.x ∧ st.x < w ∧ 0 ≤ st.y ∧ st.y < h ∧ 0 < st.r) := by
  intro rng w h hrng hw hh
  refine ⟨?_, ?_, createStars_bounds rng w h hrng hw hh, ?_,
    createStars3_bounds rng w h hrng hw hh⟩
  · intro i count
    simp [layerStars]
  · simp [createStars, STAR_COUNT]
  · simp [createStars3, layerStars, LAYER_CONFIGS]

/-- Claim C2, witness: the generator bounds evaluated at the constant
stream `1/2` on an 800×600 viewport. -/
theorem generator_count_and_bounds_witness :
    (∀ i count, (layerStars (fun _ => 0.5) 800 600 i count).length = count) ∧
      (createStars (fun _ => 0.5) 800 600).length = 450 ∧
      (∀ st ∈ createStars (fun _ => 0.5) 800 600,
        0 ≤ st.x ∧ st.x < 800 ∧ 0 ≤ st.y ∧ st.y < 600 ∧ 0 < st.r) ∧
      (createStars3 (fun _ => 0.5) 800 600).map List.length =
        LAYER_CONFIGS.map LayerCfg.count ∧
      (∀ layer ∈ createStars3 (fun _ => 0.5) 800 600, ∀ st ∈ layer,
        0 ≤ st.x ∧ st.x < 800 ∧ 0 ≤ st.y ∧ st.y < 600 ∧ 0 < st.r) :=
  generator_count_and_bounds (fun _ => 0.5) 800 600
    (fun _ => by norm_num) (by norm_num) (by norm_num)

/-- Claim C3, counterexample: the `resize` of `part_004` is only
`canvas.width = innerWidth; canvas.height = innerHeight` — no pixel-ratio
scaling, CSS size, or transform.  Resizing from `(800,600)` to
`(1600,1200)` there leaves a `1600×1200` backing store, not the `3200×2400`
the claim demands at device pixel ratio 2. -/
theorem resize_p4_ignores_pixel_ratio :
    (resizeP4 1600 1200 (resizeP4 800 600 ⟨0, 0, []⟩)).cw = 1600 ∧
      (resizeP4 1600 1200 (resizeP4 800 600 ⟨0, 0, []⟩)).ch = 1200 ∧
      ¬((resizeP4 1600 1200 (resizeP4 800 600 ⟨0, 0, []⟩)).cw = 3200 ∧
        (resizeP4 1600 1200 (resizeP4 800 600 ⟨0, 0, []⟩)).ch = 2400) := by
  refine ⟨rfl, rfl, ?_⟩
  intro hc
  have := hc.1
  norm_num [resizeP4] at this

/-- Claim C3 (amended): in the dpr-aware variants (`StarField.tsx` and the
multi-layer variant) every `resize` sets the backing store to exactly
`logical × dpr`, the CSS size to the logical dimensions, and a pure-scale
transform mapping logical drawing coordinates to device pixels; resizing
from `(800,600)` to `(1600,1200)` at ratio 2 yields a `3200×2400` backing
store.  The simplest variants (`part_004` and the first `part_003`
variant) instead set the backing store to the logical size, with no
pixel-ratio scaling, CSS size, or transform. -/
theorem resize_backing_store :
    ∀ (w h dpr : ℚ) (prev : Surface),
      (resizeSurface w h dpr prev).backingW = w * dpr ∧
      (resizeSurface w h dpr prev).backingH = h * dpr ∧
      (resizeSurface w h dpr prev).styleW = w ∧
      (resizeSurface w h dpr prev).styleH = h ∧
      (∀ x y, applyTransform (resizeSurface w h dpr prev) x y =
        (dpr * x, dpr * y)) ∧
      (resizeSurface 1600 1200 2 (resizeSurface 800 600 2 prev)).backingW =
        3200 ∧
      (resizeSurface 1600 1200 2 (resizeSurface 800 600 2 prev)).backingH =
        2400 ∧
      (∀ p4 : P4State, (resizeP4 w h p4).cw = w ∧ (resizeP4 w h p4).ch = h) := by
  intro w h dpr prev
  refine ⟨rfl, rfl, rfl, rfl, ?_, by norm_num [resizeSurface], by
    norm_num [resizeSurface], fun p4 => ⟨rfl, rfl⟩⟩
  intro x y
  simp [applyTransform, resizeSurface]

/-- Claim C4: within every frame of the multi-layer variant the paint trace
is ordered by layer index — every paint call of a lower-indexed (more
distant) layer is issued before any paint call of a higher-indexed layer —
and the three configured layers carry parallax coefficients
`0.3, 0.6, 1.0` in that order. -/
theorem layers_painted_in_order :
    (∀ (w h bpx bpy : ℚ) (rngs : ℕ → ℕ → ℚ)
      (layers : List (LayerCfg × List Star3)),
      ((framePaints w h bpx bpy rngs layers).map Paint.layer).Sorted
        (· ≤ ·)) ∧
    LAYER_CONFIGS.map LayerCfg.parallax = [0.3, 0.6, 1.0] := by
  constructor
  · intro w h bpx bpy rngs layers
    exact framePaintsAux_sorted w h bpx bpy rngs 0 layers
  · rfl

/-- Claim C5, counterexample: the multi-layer wrap triggers only once `y`
exceeds `height + 10` and respawns at `y = -10`, so each wrap cycle spans
`height + 20` of travel, not `height`.  A foreground star
(`speedY = 0.18`, depth factor 1.4) generated at `y = 0` on a 600-high
viewport travels `3350 × 0.18 = 603 ≤ 610` pixels in 3350 frames and wraps
zero times, while the claimed bound `⌊3350·0.18/600⌋ = 1` demands one
wrap. -/
theorem wrap_floor_bound_counterexample :
    ((wrapCount 800 600 0.18 (fun _ => 0) 3350
        (mkStar3 800 600 1.4 0 0 0 0 0) : ℤ) <
      ⌊(3350 * (0.18 : ℚ)) / 600⌋) := by
  have h0 : wrapCount 800 600 0.18 (fun _ => 0) 3350
      (mkStar3 800 600 1.4 0 0 0 0 0) = 0 := by
    apply wrapCount_eq_zero
    · norm_num
    · show (0 : ℚ) * 600 + (3350 : ℕ) * 0.18 ≤ 600 + 10
      norm_num
  have hfl : ⌊(3350 * (0.18 : ℚ)) / 600⌋ = 1 := by
    rw [Int.floor_eq_iff]
    norm_num
  rw [h0, hfl]
  norm_num

/-- Claim C5 (amended): each wrap cycle spans `height + 20` pixels of
travel (respawn at 10 above the top edge, wrap at 10 past the bottom
edge).  For every window length `K` whose travel `K·speedY` exceeds
`height + 20`, a star starting at or below the respawn line wraps at least
`⌊N / K⌋` times in `N` frames — the field never empties. -/
theorem wrap_count_lower_bound :
    ∀ (w h speedY : ℚ) (rng : ℕ → ℚ) (st : Star3) (K N : ℕ),
      0 < h → 0 < speedY → -10 ≤ st.y → h + 20 < (K : ℚ) * speedY →
      N / K ≤ wrapCount w h speedY rng N st := by
  intro w h speedY rng st K N hh hs hy hK
  calc N / K ≤ wrapCount w h speedY rng (N / K * K) st :=
        wraps_per_windows w h speedY rng K (N / K) st hh hs hy hK
    _ ≤ wrapCount w h speedY rng N st :=
        wrapCount_mono w h speedY rng _ N st (Nat.div_mul_le_self N K)

/-- Claim C5, witness: a mid-layer star (`speedY = 0.10`) generated at
`y = 0` on a 600-high viewport wraps at least `⌊12402/6201⌋ = 2` times in
12402 frames (`6201 × 0.10 = 620.1 > 620`). -/
theorem wrap_count_lower_bound_witness :
    (12402 : ℕ) / 6201 ≤ wrapCount 800 600 0.10 (fun _ => 0) 12402
      (mkStar3 800 600 1 0 0 0 0 0) :=
  wrap_count_lower_bound 800 600 0.10 (fun _ => 0)
    (mkStar3 800 600 1 0 0 0 0 0) 6201 12402 (by norm_num) (by norm_num)
    (by show (-10 : ℚ) ≤ 0 * 600; norm_num) (by push_cast; norm_num)

/-- Claim C6, counterexample: the cleanup of `part_004` is only
`removeEventListener("resize", resize)` — it never calls
`cancelAnimationFrame`, so after detach the self-rescheduling frame
callback started on mount is still pending, refuting "zero scheduled frame
callbacks remain pending". -/
theorem detach_p4_leaves_pending_frame :
    (cleanupP4 (mountP4 0 ⟨[], none⟩)).pending = some 0 ∧
      (cleanupP4 (mountP4 0 ⟨[], none⟩)).pending ≠ none := by
  refine ⟨rfl, ?_⟩
  simp [cleanupP4, mountP4, removeListener, requestFrame, addListener]

/-- Claim C6 (amended): in `StarField.tsx` (and the multi-layer variant)
the `useEffect` cleanup (the engine's `stop`/`detach`) is idempotent, can
run before any start without effect, and is leak-free: after it no
scheduled frame callback is pending, the resize listener registered on
mount is gone, and the host's listener list is exactly what it was before
the mount.  The cleanup of the simplest variants (`part_004` and the first
`part_003` variant) removes the resize listener, idempotently, but never
cancels the scheduled frame callback, which stays pending.  All host
operations involved (`removeEventListener`, `cancelAnimationFrame`) are
total, so no call sequence throws. -/
theorem detach_idempotent_leakfree :
    ∀ (host : Host) (id : ℕ), "resize" ∉ host.listeners →
      cleanupTsx id (cleanupTsx id (mountTsx id host)) =
        cleanupTsx id (mountTsx id host) ∧
      (cleanupTsx id (mountTsx id host)).pending = none ∧
      "resize" ∉ (cleanupTsx id (mountTsx id host)).listeners ∧
      (cleanupTsx id (mountTsx id host)).listeners = host.listeners ∧
      (host.pending = none → cleanupTsx id host = host) ∧
      cleanupP4 (cleanupP4 (mountP4 id host)) = cleanupP4 (mountP4 id host) ∧
      (cleanupP4 (mountP4 id host)).listeners = host.listeners ∧
      "resize" ∉ (cleanupP4 (mountP4 id host)).listeners ∧
      (cleanupP4 (mountP4 id host)).pending = some id := by
  intro host id hmem
  obtain ⟨ls, pd⟩ := host
  have hmem' : "resize" ∉ ls := hmem
  have herase : (ls ++ ["resize"]).erase "resize" = ls := by
    rw [List.erase_append_right _ hmem', List.erase_cons_head,
      List.append_nil]
  have herase2 : ls.erase "resize" = ls := List.erase_of_not_mem hmem'
  refine ⟨?_, ?_, ?_, ?_, ?_, ?_, ?_, ?_, ?_⟩
  · simp [cleanupTsx, mountTsx, cancelFrame, removeListener, requestFrame,
      addListener, herase, herase2]
  · simp [cleanupTsx, mountTsx, cancelFrame, removeListener, requestFrame,
      addListener]
  · simp only [cleanupTsx, mountTsx, cancelFrame, removeListener,
      requestFrame, addListener, herase]
    simpa using hmem
  · simp [cleanupTsx, mountTsx, cancelFrame, removeListener, requestFrame,
      addListener, herase]
  · intro hpd
    simp only at hpd
    simp [cleanupTsx, cancelFrame, removeListener, herase2, hpd]
  · simp [cleanupP4, mountP4, removeListener, requestFrame, addListener,
      herase, herase2]
  · simp [cleanupP4, mountP4, removeListener, requestFrame, addListener,
      herase]
  · simp only [cleanupP4, mountP4, removeListener, requestFrame,
      addListener, herase]
    simpa using hmem
  · simp [cleanupP4, mountP4, removeListener, requestFrame, addListener]

/-- Claim C6, witness: the cleanup guarantees evaluated on a pristine host
and frame handle 0. -/
theorem detach_idempotent_leakfree_witness :
    cleanupTsx 0 (cleanupTsx 0 (mountTsx 0 ⟨[], none⟩)) =
        cleanupTsx 0 (mountTsx 0 ⟨[], none⟩) ∧
      (cleanupTsx 0 (mountTsx 0 ⟨[], none⟩)).pending = none ∧
      "resize" ∉ (cleanupTsx 0 (mountTsx 0 ⟨[], none⟩)).listeners ∧
      (cleanupTsx 0 (mountTsx 0 ⟨[], none⟩)).listeners =
        (⟨[], none⟩ : Host).listeners ∧
      ((⟨[], none⟩ : Host).pending = none →
        cleanupTsx 0 ⟨[], none⟩ = (⟨[], none⟩ : Host)) ∧
      cleanupP4 (cleanupP4 (mountP4 0 ⟨[], none⟩)) =
        cleanupP4 (mountP4 0 ⟨[], none⟩) ∧
      (cleanupP4 (mountP4 0 ⟨[], none⟩)).listeners =
        (⟨[], none⟩ : Host).listeners ∧
      "resize" ∉ (cleanupP4 (mountP4 0 ⟨[], none⟩)).listeners ∧
      (cleanupP4 (mountP4 0 ⟨[], none⟩)).pending = some 0 :=
  detach_idempotent_leakfree ⟨[], none⟩ 0 (by simp)

/-- Claim C7, counterexample: the simplest variant (`part_004`) reads
`canvas.getContext("2d")` without any null check, so with the canvas
unavailable its effect body throws instead of returning as a no-op. -/
theorem start_unguarded_throws :
    startP4 none (some ()) = StartOutcome.threw "TypeError: canvas is null" ∧
      startP4 none (some ()) ≠ StartOutcome.noop := by
  exact ⟨rfl, by simp [startP4]⟩

/-- Claim C7 (amended): in the guarded variants (`StarField.tsx` and both
`part_003` variants) the effect body returns as a no-op, without throwing,
whenever the canvas or its 2D context is unavailable, and the scheduled
frame callback never throws (its body re-checks the canvas and otherwise
performs only total operations, so every frame evaluates to `ok`); the
unguarded simplest variant `part_004` instead throws when the canvas is
missing. -/
theorem start_guarded_noop :
    (∀ ctx2d, startGuarded none ctx2d = StartOutcome.noop) ∧
      startGuarded (some ()) none = StartOutcome.noop ∧
      (∀ canvas ctx2d m, startGuarded canvas ctx2d ≠ StartOutcome.threw m) ∧
      (∀ (canvas : Option Unit) (w h : ℚ) (stars : List StarD),
        ∃ out, animateTsxE canvas w h stars = Except.ok out) := by
  refine ⟨fun _ => rfl, rfl, ?_, ?_⟩
  · intro canvas ctx2d m
    cases canvas <;> cases ctx2d <;> simp [startGuarded]
  · intro canvas w h stars
    cases canvas <;> exact ⟨_, rfl⟩

/-- Claim C8, counterexample: the `resize` handler of `part_004` only
reassigns the canvas dimensions and keeps the star list; after shrinking an
800×600 viewport to 400×300, a star generated at `x = 0.875·800 = 700`
remains in the collection with `x = 700 > 400`, outside the new viewport. -/
theorem resize_p4_keeps_stale_stars :
    (resizeP4 400 300
        ⟨800, 600, [mkStarP4 800 600 0.875 0.5 0.5 0.5 0.5]⟩).stars =
      [mkStarP4 800 600 0.875 0.5 0.5 0.5 0.5] ∧
    ∃ s ∈ (resizeP4 400 300
        ⟨800, 600, [mkStarP4 800 600 0.875 0.5 0.5 0.5 0.5]⟩).stars,
      (resizeP4 400 300
        ⟨800, 600, [mkStarP4 800 600 0.875 0.5 0.5 0.5 0.5]⟩).cw < s.x := by
  refine ⟨rfl, ⟨mkStarP4 800 600 0.875 0.5 0.5 0.5 0.5, ?_, ?_⟩⟩
  · simp [resizeP4]
  · show (400 : ℚ) < 0.875 * 800
    norm_num

/-- Claim C8 (amended): in the drifting single-layer variant and the
multi-layer variant the `resize` handler replaces the whole particle
collection with a field generated from the new dimensions, so every star it
leaves behind lies inside the new viewport; the simplest variants
(`part_004` and the first `part_003` variant) resize the canvas without
regenerating the field. -/
theorem resize_regenerates_field :
    ∀ (rng : ℕ → ℚ) (w h dpr : ℚ) (st : TsxState) (st3 : State3),
      (∀ n, 0 ≤ rng n ∧ rng n < 1) → 0 < w → 0 < h →
      (resizeTsx rng w h dpr st).stars = createStars rng w h ∧
      (∀ s ∈ (resizeTsx rng w h dpr st).stars,
        0 ≤ s.x ∧ s.x < w ∧ 0 ≤ s.y ∧ s.y < h) ∧
      (resize3 rng w h dpr st3).layers = createStars3 rng w h ∧
      (∀ L ∈ (resize3 rng w h dpr st3).layers, ∀ s ∈ L,
        0 ≤ s.x ∧ s.x < w ∧ 0 ≤ s.y ∧ s.y < h) := by
  intro rng w h dpr st st3 hrng hw hh
  refine ⟨rfl, ?_, rfl, ?_⟩
  · intro s hs
    obtain ⟨h1, h2, h3, h4, _⟩ := createStars_bounds rng w h hrng hw hh s hs
    exact ⟨h1, h2, h3, h4⟩
  · intro L hL s hs
    obtain ⟨h1, h2, h3, h4, _⟩ :=
      createStars3_bounds rng w h hrng hw hh L hL s hs
    exact ⟨h1, h2, h3, h4⟩

/-- Claim C8, witness: the regeneration guarantees evaluated at the
constant stream `1/2`, a 400×300 viewport and empty prior states. -/
theorem resize_regenerates_field_witness :
    (resizeTsx (fun _ => 0.5) 400 300 1
        ⟨⟨0, 0, 0, 0, 0, 0, 0, 0, 0, 0⟩, []⟩).stars =
      createStars (fun _ => 0.5) 400 300 ∧
      (∀ s ∈ (resizeTsx (fun _ => 0.5) 400 300 1
          ⟨⟨0, 0, 0, 0, 0, 0, 0, 0, 0, 0⟩, []⟩).stars,
        0 ≤ s.x ∧ s.x < 400 ∧ 0 ≤ s.y ∧ s.y < 300) ∧
      (resize3 (fun _ => 0.5) 400 300 1
        ⟨⟨0, 0, 0, 0, 0, 0, 0, 0, 0, 0⟩, []⟩).layers =
        createStars3 (fun _ => 0.5) 400 300 ∧
      (∀ L ∈ (resize3 (fun _ => 0.5) 400 300 1
          ⟨⟨0, 0, 0, 0, 0, 0, 0, 0, 0, 0⟩, []⟩).layers, ∀ s ∈ L,
        0 ≤ s.x ∧ s.x < 400 ∧ 0 ≤ s.y ∧ s.y < 300) :=
  resize_regenerates_field (fun _ => 0.5) 400 300 1
    ⟨⟨0, 0, 0, 0, 0, 0, 0, 0, 0, 0⟩, []⟩
    ⟨⟨0, 0, 0, 0, 0, 0, 0, 0, 0, 0⟩, []⟩
    (fun _ => by norm_num) (by norm_num) (by norm_num)

/-- Claim C9, counterexample: the generator never randomizes the twinkle
rate's sign — no admissible random stream can produce a star with a
negative initial rate, refuting the spec-side reading
`specTwinkleSignRandomized`. -/
theorem twinkle_sign_not_randomized : ¬ specTwinkleSignRandomized := by
  rintro ⟨rng, hrng, layer, hl, st, hst, hneg⟩
  exact absurd (createStars3_twinkle_pos rng 800 600 hrng layer hl st hst)
    (by linarith)

/-- Claim C9 (amended): the initial twinkle rate of every generated
multi-layer star equals a uniform draw in `[0.002, 0.012)` multiplied by
the layer's depth factor — nearer layers twinkle faster — and it is always
strictly positive: the sign is not randomized at generation and only flips
later, during animation, at the brightness-band bounds. -/
theorem twinkle_rate_band_positive :
    ∀ (rng : ℕ → ℚ) (w h : ℚ), (∀ n, 0 ≤ rng n ∧ rng n < 1) →
      ∀ (i count : ℕ), ∀ st ∈ layerStars rng w h i count,
        0.002 * depthFactor i ≤ st.twinkleSpeed ∧
          st.twinkleSpeed < 0.012 * depthFactor i ∧ 0 < st.twinkleSpeed := by
  intro rng w h hrng i count st hst
  rw [layerStars, List.mem_map] at hst
  obtain ⟨sIdx, _, rfl⟩ := hst
  exact mkStar3_twinkle w h _ _ _ _ _ _ (depthFactor_pos i)
    (hrng _).1 (hrng _).2

/-- Claim C9, witness: the twinkle-rate band evaluated on the first star of
the foreground layer generated from the constant stream `1/2`. -/
theorem twinkle_rate_band_positive_witness :
    0.002 * depthFactor 2 ≤
        (mkStar3 800 600 (depthFactor 2) 0.5 0.5 0.5 0.5 0.5).twinkleSpeed ∧
      (mkStar3 800 600 (depthFactor 2) 0.5 0.5 0.5 0.5 0.5).twinkleSpeed <
        0.012 * depthFactor 2 ∧
      0 < (mkStar3 800 600 (depthFactor 2) 0.5 0.5 0.5 0.5 0.5).twinkleSpeed :=
  twinkle_rate_band_positive (fun _ => 0.5) 800 600 (fun _ => by norm_num)
    2 140 (mkStar3 800 600 (depthFactor 2) 0.5 0.5 0.5 0.5 0.5)
    (by rw [layerStars]; exact List.mem_map.mpr ⟨0, by simp, rfl⟩)

/-- Claim C10: the drifting variant's per-frame update preserves the
position invariant — a star inside the viewport stays inside `[0, width] ×
[0, height]` after drift and edge wrap — and a coordinate that leaves the
viewport is set exactly to the opposite edge. -/
theorem drift_wrap_preserves_position :
    ∀ (w h : ℚ) (s : StarD), 0 ≤ s.x → s.x ≤ w → 0 ≤ s.y → s.y ≤ h →
      (0 ≤ (updateStarD w h s).x ∧ (updateStarD w h s).x ≤ w ∧
        0 ≤ (updateStarD w h s).y ∧ (updateStarD w h s).y ≤ h) ∧
      (s.x + s.vx < 0 → (updateStarD w h s).x = w) ∧
      (w < s.x + s.vx → (updateStarD w h s).x = 0) ∧
      (s.y + s.vy < 0 → (updateStarD w h s).y = h) ∧
      (h < s.y + s.vy → (updateStarD w h s).y = 0) := by
  intro w h s hx0 hxw hy0 hyh
  have hw : (0 : ℚ) ≤ w := le_trans hx0 hxw
  have hh : (0 : ℚ) ≤ h := le_trans hy0 hyh
  obtain ⟨hwx0, hwx1⟩ := wrapCoord_mem w (s.x + s.vx) hw
  obtain ⟨hwy0, hwy1⟩ := wrapCoord_mem h (s.y + s.vy) hh
  refine ⟨⟨?_, ?_, ?_, ?_⟩, ?_, ?_, ?_, ?_⟩
  · rw [updateStarD_x]; exact hwx0
  · rw [updateStarD_x]; exact hwx1
  · rw [updateStarD_y]; exact hwy0
  · rw [updateStarD_y]; exact hwy1
  · intro hlt
    rw [updateStarD_x]
    unfold wrapCoord
    dsimp only
    split_ifs <;> first | rfl | linarith
  · intro hgt
    rw [updateStarD_x]
    unfold wrapCoord
    dsimp only
    split_ifs <;> first | rfl | linarith
  · intro hlt
    rw [updateStarD_y]
    unfold wrapCoord
    dsimp only
    split_ifs <;> first | rfl | linarith
  · intro hgt
    rw [updateStarD_y]
    unfold wrapCoord
    dsimp only
    split_ifs <;> first | rfl | linarith

/-- Claim C10, witness: the position invariant evaluated on a concrete
star. -/
theorem drift_wrap_preserves_position_witness :
    (0 ≤ (updateStarD 800 600 ⟨10, 20, 1, 0.5, 0.01, 1, -1⟩).x ∧
      (updateStarD 800 600 ⟨10, 20, 1, 0.5, 0.01, 1, -1⟩).x ≤ 800 ∧
      0 ≤ (updateStarD 800 600 ⟨10, 20, 1, 0.5, 0.01, 1, -1⟩).y ∧
      (updateStarD 800 600 ⟨10, 20, 1, 0.5, 0.01, 1, -1⟩).y ≤ 600) ∧
    ((10 : ℚ) + 1 < 0 → (updateStarD 800 600 ⟨10, 20, 1, 0.5, 0.01, 1, -1⟩).x = 800) ∧
    ((800 : ℚ) < 10 + 1 → (updateStarD 800 600 ⟨10, 20, 1, 0.5, 0.01, 1, -1⟩).x = 0) ∧
    ((20 : ℚ) + -1 < 0 → (updateStarD 800 600 ⟨10, 20, 1, 0.5, 0.01, 1, -1⟩).y = 600) ∧
    ((600 : ℚ) < 20 + -1 → (updateStarD 800 600 ⟨10, 20, 1, 0.5, 0.01, 1, -1⟩).y = 0) :=
  drift_wrap_preserves_position 800 600 ⟨10, 20, 1, 0.5, 0.01, 1, -1⟩
    (by norm_num) (by norm_num) (by norm_num) (by norm_num)

end StarFieldSpec
